import Mathlib

/-!
# GFlights flight-service layer, shallowly embedded

This file embeds the flight-search request normalization, response
shaping, and local cache store of `src/services/flightService.ts`
(the `FlightService` class) and proves the specification claims about
them.

Host primitives the TypeScript code calls (JS `Date` parsing, the
axios `api.post` call, `Date.now`, AsyncStorage fault behaviour) are
modelled as an explicit environment passed to each operation; the
stored JSON strings are abstracted to their parse result, with a
distinguished `corrupt` constructor standing for a string on which
`JSON.parse` throws.
-/

namespace GFlights

/-- JS truthiness of an optional string field: `undefined`/`null` and
the empty string are falsy. -/
def jsFalsyOpt : Option String → Bool
  | none => true
  | some s => s == ""

/-- JS `o || d` on an optional string: yields `d` when the field is
absent or the empty string (both falsy in JS). -/
def jsOrStr (o : Option String) (d : String) : String :=
  match o with
  | none => d
  | some s => if s == "" then d else s

/-- JS `n || d` on a number: `0` is falsy. -/
def jsOrNat (n d : Nat) : Nat := if n = 0 then d else n

/-- The JS `String.prototype.toUpperCase` host primitive, modelled as
character-wise uppercasing. -/
def jsToUpper (s : String) : String := String.mk (s.data.map Char.toUpper)

/-- The JS `String.prototype.trim` host primitive: strip whitespace
from both ends. -/
def jsTrim (s : String) : String :=
  String.mk (((s.data.dropWhile Char.isWhitespace).reverse.dropWhile
    Char.isWhitespace).reverse)

/-- The UI-side search request (`FlightSearchRequest`); the fields are
exactly those `flightService.ts` reads. -/
structure FlightSearchRequest where
  originLocationCode : String
  destinationLocationCode : String
  originEntityId : Option String
  destinationEntityId : Option String
  departureDate : String
  returnDate : Option String
  adults : Nat
  children : Option Nat
  infants : Option Nat
  travelClass : Option String
  currencyCode : Option String
  deriving Repr, DecidableEq

/-- A persisted recent search (`RecentSearch`), as built in
`saveRecentSearch` lines 257-265. -/
structure RecentSearch where
  id : String
  origin : String
  destination : String
  departureDate : String
  returnDate : Option String
  passengers : Nat
  searchedAt : String
  deriving Repr, DecidableEq

/-- A popular-route seed record (`PopularRoute`). -/
structure PopularRoute where
  origin : String
  destination : String
  originName : String
  destinationName : String
  averagePrice : String
  popularity : Nat
  deriving Repr, DecidableEq

/-- What the recent-searches key can hold, abstracting the JSON string:
either a serialization of a list (`JSON.parse` succeeds and yields the
list) or a corrupt string (`JSON.parse` throws). -/
inductive RecentVal where
  | ok (l : List RecentSearch)
  | corrupt
  deriving Repr, DecidableEq

/-- Same abstraction for the popular-routes key. -/
inductive RoutesVal where
  | ok (l : List PopularRoute)
  | corrupt
  deriving Repr, DecidableEq

/-- The AsyncStorage state restricted to the two keys the service uses
(`@gflights_recent_searches` and `@gflights_popular_routes`); `none`
models an absent key. -/
structure Store where
  recentSearches : Option RecentVal
  popularRoutes : Option RoutesVal
  deriving Repr, DecidableEq

/-- The provider-shaped request object built in `searchFlights`
lines 96-121 (`backendRequest`). -/
structure BackendRequest where
  originSkyId : String
  destinationSkyId : String
  originEntityId : Option String
  destinationEntityId : Option String
  departureDate : String
  cabinClass : String
  adults : String
  children : String
  infants : String
  sortBy : String
  currency : String
  market : String
  countryCode : String
  returnDate : Option String
  deriving Repr, DecidableEq

/-- The `meta` block of the shaped response (lines 138-143). -/
structure ResponseMeta where
  count : Nat
  selfLink : String
  deriving Repr, DecidableEq

/-- The shaped `FlightSearchResponse`; `α` is the offer type and `δ` the
dictionaries type, both opaque to the service, which passes them
through untouched. -/
structure FlightSearchResponse (α δ : Type) where
  data : List α
  meta : ResponseMeta
  dictionaries : δ
  deriving Repr, DecidableEq

/-- Outcome of `api.post('/flights/search', …)` as observed through
axios: a 2xx response whose body may carry `data` and `dictionaries`
fields; a non-2xx response (axios rejects with `error.response` set,
whose body may carry a `message`); or a transport failure (axios
rejects with no `error.response`). -/
inductive PostOutcome (α δ : Type) where
  | success (data : Option (List α)) (dictionaries : Option δ)
  | httpError (status : Nat) (dataMessage : Option String) (message : String)
  | networkError (message : String)

/-- Environment of one `searchFlights` call: the host primitives the
code uses (JS `Date` parsing as a validity oracle, the network call
outcome, the clock reads of lines 258 and 264, the meaning of the JS
`{}` literal at the dictionaries fallback) and fault injection for the
two AsyncStorage operations inside `saveRecentSearch`. -/
structure SearchEnv (α δ : Type) where
  dateValid : String → Bool
  post : PostOutcome α δ
  nowId : String
  nowIso : String
  emptyDict : δ
  getRecentThrows : Bool
  setRecentThrows : Bool

/-- Environment of one `getPopularRoutes` call: fault injection for its
two AsyncStorage operations. -/
structure RoutesEnv where
  getThrows : Bool
  setThrows : Bool
  deriving Repr, DecidableEq

/-- Message of the `Error` thrown at line 83. -/
def invalidDepartureMsg : String := "Invalid departure date format"

/-- Message of the `Error` thrown at line 88. -/
def missingCodesMsg : String := "Origin and destination airport codes are required"

/-- Message of the `Error` thrown at line 92; the spec's `MissingField`
error for absent entity identifiers. -/
def missingEntityIdsMsg : String :=
  "Origin and destination entity IDs are required. Please select airports from the search results."

/-- Message of the `Error` thrown on an upstream 401 (line 149); the
spec's `AuthRequired` error. -/
def authRequiredMsg : String := "Authentication required. Please login again."

/-- The generic wrapper applied at line 154; the spec's `SearchFailed`
error carrying message `m`. -/
def searchFailedMsg (m : String) : String := "Flight search failed: " ++ m

/-- `convertCabinClass` (lines 65-78):
`switch (travelClass?.toUpperCase())` over the four known values,
defaulting to `economy`. -/
def convertCabinClass (travelClass : Option String) : String :=
  let u := travelClass.map jsToUpper
  if u = some "ECONOMY" then "economy"
  else if u = some "PREMIUM_ECONOMY" then "premium_economy"
  else if u = some "BUSINESS" then "business"
  else if u = some "FIRST" then "first"
  else "economy"

/-- The validation prefix of `searchFlights` (lines 80-93), in source
order: departure-date parse check first, then location-code presence,
then entity-identifier presence.  Returns the message of the first
`Error` thrown, if any. -/
def validateRequest (dateValid : String → Bool) (req : FlightSearchRequest) : Option String :=
  if !dateValid req.departureDate then some invalidDepartureMsg
  else if req.originLocationCode == "" || req.destinationLocationCode == "" then
    some missingCodesMsg
  else if jsFalsyOpt req.originEntityId || jsFalsyOpt req.destinationEntityId then
    some missingEntityIdsMsg
  else none

/-- The lenient return-date policy of lines 112-121: the `returnDate`
field is attached (with the original string) only when the input is
present, truthy, non-blank after trimming, and parses; otherwise the
field stays absent and the search proceeds. -/
def normalizedReturnDate (dateValid : String → Bool) (ret : Option String) : Option String :=
  match ret with
  | some r =>
      if !(r == "") && !(jsTrim r == "") then
        if dateValid r then some r else none
      else none
  | none => none

/-- The provider request construction (lines 96-121); the conditional
`backendRequest.returnDate` assignment is folded into the
`returnDate` field via `normalizedReturnDate`. -/
def buildBackendRequest (dateValid : String → Bool) (req : FlightSearchRequest) :
    BackendRequest :=
  { originSkyId := req.originLocationCode
    destinationSkyId := req.destinationLocationCode
    originEntityId := req.originEntityId
    destinationEntityId := req.destinationEntityId
    departureDate := req.departureDate
    cabinClass := convertCabinClass req.travelClass
    adults := jsOrStr (some (toString req.adults)) "1"
    children := jsOrStr (req.children.map toString) "0"
    infants := jsOrStr (req.infants.map toString) "0"
    sortBy := "best"
    currency := jsOrStr req.currencyCode "USD"
    market := "en-US"
    countryCode := "US"
    returnDate := normalizedReturnDate dateValid req.returnDate }

/-- The `RecentSearch` record built at lines 257-265. -/
def mkRecentSearch {α δ : Type} (env : SearchEnv α δ) (req : FlightSearchRequest) :
    RecentSearch :=
  { id := env.nowId
    origin := req.originLocationCode
    destination := req.destinationLocationCode
    departureDate := req.departureDate
    returnDate := req.returnDate
    passengers := req.adults + req.children.getD 0 + req.infants.getD 0
    searchedAt := env.nowIso }

/-- Line 268, `stored ? JSON.parse(stored) : []`: an absent value reads
as `[]`; `none` here models the `JSON.parse` throw on a corrupt stored
string. -/
def parseStoredRecent : Option RecentVal → Option (List RecentSearch)
  | none => some []
  | some (RecentVal.ok l) => some l
  | some RecentVal.corrupt => none

/-- `saveRecentSearch` (lines 255-278).  The whole body sits in a
`try`/`catch` that only logs, so a throwing storage read, a corrupt
stored value (throwing `JSON.parse`), or a throwing storage write all
leave the store unchanged and raise nothing. -/
def saveRecentSearch {α δ : Type} (env : SearchEnv α δ) (req : FlightSearchRequest)
    (st : Store) : Store :=
  let recentSearch := mkRecentSearch env req
  if env.getRecentThrows then st
  else
    match parseStoredRecent st.recentSearches with
    | none => st
    | some recentSearches =>
        let limitedSearches := (recentSearch :: recentSearches).take 10
        if env.setRecentThrows then st
        else { st with recentSearches := some (RecentVal.ok limitedSearches) }

/-- `getRecentSearches` (lines 281-289): parse failure, storage failure,
or absence all yield `[]`. -/
def getRecentSearches (getThrows : Bool) (st : Store) : List RecentSearch :=
  if getThrows then []
  else
    match st.recentSearches with
    | some (RecentVal.ok l) => l
    | some RecentVal.corrupt => []
    | none => []

/-- `clearRecentSearches` (lines 292-298): remove the key; a throwing
removal is swallowed. -/
def clearRecentSearches (removeThrows : Bool) (st : Store) : Store :=
  if removeThrows then st else { st with recentSearches := none }

/-- The static seed list `mockPopularRoutes` (lines 18-59). -/
def mockPopularRoutes : List PopularRoute :=
  [ { origin := "JFK", destination := "LAX", originName := "New York (JFK)",
      destinationName := "Los Angeles (LAX)", averagePrice := "320", popularity := 95 },
    { origin := "LAX", destination := "SFO", originName := "Los Angeles (LAX)",
      destinationName := "San Francisco (SFO)", averagePrice := "180", popularity := 88 },
    { origin := "ORD", destination := "LAX", originName := "Chicago (ORD)",
      destinationName := "Los Angeles (LAX)", averagePrice := "290", popularity := 82 },
    { origin := "JFK", destination := "LHR", originName := "New York (JFK)",
      destinationName := "London (LHR)", averagePrice := "650", popularity := 78 },
    { origin := "LAX", destination := "NRT", originName := "Los Angeles (LAX)",
      destinationName := "Tokyo (NRT)", averagePrice := "890", popularity := 75 } ]

/-- Result of one `getPopularRoutes` call: the returned list, the
storage state afterwards, and whether the seed write of line 246 was
performed. -/
structure RoutesOutcome where
  result : List PopularRoute
  store : Store
  seedWritten : Bool
  deriving Repr, DecidableEq

/-- `getPopularRoutes` (lines 238-252): a write-once read-through cache
over the static seed list.  A stored value is returned as parsed; an
absent key triggers the single seed write; every failure path falls
back to the seed list without writing (the `catch` at line 248). -/
def getPopularRoutes (env : RoutesEnv) (st : Store) : RoutesOutcome :=
  if env.getThrows then { result := mockPopularRoutes, store := st, seedWritten := false }
  else
    match st.popularRoutes with
    | some (RoutesVal.ok l) => { result := l, store := st, seedWritten := false }
    | some RoutesVal.corrupt =>
        { result := mockPopularRoutes, store := st, seedWritten := false }
    | none =>
        if env.setThrows then
          { result := mockPopularRoutes, store := st, seedWritten := false }
        else
          { result := mockPopularRoutes
            store := { st with popularRoutes := some (RoutesVal.ok mockPopularRoutes) }
            seedWritten := true }

/-- What one `searchFlights` call leaves behind: the settled promise
(`Except.error m` for a rejection with an `Error` whose message is
`m`), the storage state afterwards, and the provider request handed to
`api.post` (`none` when no network call was issued). -/
structure SearchOutcome (α δ : Type) where
  result : Except String (FlightSearchResponse α δ)
  store : Store
  sent : Option BackendRequest

/-- `searchFlights` (lines 62-156).  The body is one `try`/`catch`; the
`catch` re-throws an upstream 401 as the auth error and everything
else — validation errors included — wrapped by `searchFailedMsg`, with
the upstream body message preferred over the transport message when
truthy.  On a 2xx response the recent search is saved (its failures
swallowed inside `saveRecentSearch`) and the response is shaped:
offers from the nested `data` field or `[]`, `count` recomputed as the
array length, dictionaries passed through or defaulted to `{}`. -/
def searchFlights {α δ : Type} (env : SearchEnv α δ) (req : FlightSearchRequest)
    (st : Store) : SearchOutcome α δ :=
  match validateRequest env.dateValid req with
  | some msg => { result := Except.error (searchFailedMsg msg), store := st, sent := none }
  | none =>
    let backendRequest := buildBackendRequest env.dateValid req
    match env.post with
    | PostOutcome.success d dicts =>
        let st1 := saveRecentSearch env req st
        let responseData := d.getD []
        { result := Except.ok
            { data := responseData
              meta := { count := jsOrNat responseData.length 0, selfLink := "/flights/search" }
              dictionaries := dicts.getD env.emptyDict }
          store := st1
          sent := some backendRequest }
    | PostOutcome.httpError status dataMessage message =>
        if status = 401 then
          { result := Except.error authRequiredMsg, store := st, sent := some backendRequest }
        else
          { result := Except.error (searchFailedMsg (jsOrStr dataMessage message))
            store := st
            sent := some backendRequest }
    | PostOutcome.networkError message =>
        { result := Except.error (searchFailedMsg message), store := st, sent := some backendRequest }

/-! ## Helper lemmas -/

/-- All three validation checks of lines 80-93 pass. -/
theorem validateRequest_eq_none {dv : String → Bool} {req : FlightSearchRequest}
    (h1 : dv req.departureDate = true)
    (h2 : (req.originLocationCode == "") = false)
    (h3 : (req.destinationLocationCode == "") = false)
    (h4 : jsFalsyOpt req.originEntityId = false)
    (h5 : jsFalsyOpt req.destinationEntityId = false) :
    validateRequest dv req = none := by
  simp [validateRequest, h1, h2, h3, h4, h5]

/-! ## Claim theorems -/

/-- C8: in every provider request produced, the cabin class is the
lower-snake-case image of the UI's upper-snake-case enumeration
(`ECONOMY ↦ economy`, `PREMIUM_ECONOMY ↦ premium_economy`,
`BUSINESS ↦ business`, `FIRST ↦ first`), and every unrecognized or
absent travel-class value maps to `economy`. -/
theorem cabinClass_normalization :
    (∀ (dv : String → Bool) (req : FlightSearchRequest),
      req.travelClass = some "ECONOMY" →
        (buildBackendRequest dv req).cabinClass = "economy") ∧
    (∀ (dv : String → Bool) (req : FlightSearchRequest),
      req.travelClass = some "PREMIUM_ECONOMY" →
        (buildBackendRequest dv req).cabinClass = "premium_economy") ∧
    (∀ (dv : String → Bool) (req : FlightSearchRequest),
      req.travelClass = some "BUSINESS" →
        (buildBackendRequest dv req).cabinClass = "business") ∧
    (∀ (dv : String → Bool) (req : FlightSearchRequest),
      req.travelClass = some "FIRST" →
        (buildBackendRequest dv req).cabinClass = "first") ∧
    (∀ (dv : String → Bool) (req : FlightSearchRequest),
      req.travelClass = none →
        (buildBackendRequest dv req).cabinClass = "economy") ∧
    (∀ (dv : String → Bool) (req : FlightSearchRequest) (s : String),
      req.travelClass = some s →
      jsToUpper s ≠ "ECONOMY" → jsToUpper s ≠ "PREMIUM_ECONOMY" →
      jsToUpper s ≠ "BUSINESS" → jsToUpper s ≠ "FIRST" →
        (buildBackendRequest dv req).cabinClass = "economy") := by
  refine ⟨?_, ?_, ?_, ?_, ?_, ?_⟩
  · intro dv req h; simp [buildBackendRequest, convertCabinClass, h]; decide
  · intro dv req h; simp [buildBackendRequest, convertCabinClass, h]; decide
  · intro dv req h; simp [buildBackendRequest, convertCabinClass, h]; decide
  · intro dv req h; simp [buildBackendRequest, convertCabinClass, h]; decide
  · intro dv req h; simp [buildBackendRequest, convertCabinClass, h]
  · intro dv req s h h1 h2 h3 h4
    simp [buildBackendRequest, convertCabinClass, h, h1, h2, h3, h4]

/-- C8 witness: the concrete mapping at a sample of inputs, via
`cabinClass_normalization`. -/
theorem cabinClass_normalization_witness :
    (buildBackendRequest (fun _ => true)
      { originLocationCode := "JFK", destinationLocationCode := "LAX",
        originEntityId := some "27537542", destinationEntityId := some "27544850",
        departureDate := "2024-06-01", returnDate := none, adults := 1,
        children := none, infants := none, travelClass := some "BUSINESS",
        currencyCode := none }).cabinClass = "business" ∧
    (buildBackendRequest (fun _ => true)
      { originLocationCode := "JFK", destinationLocationCode := "LAX",
        originEntityId := some "27537542", destinationEntityId := some "27544850",
        departureDate := "2024-06-01", returnDate := none, adults := 1,
        children := none, infants := none, travelClass := some "luxury",
        currencyCode := none }).cabinClass = "economy" :=
  ⟨cabinClass_normalization.2.2.1 _ _ rfl,
   cabinClass_normalization.2.2.2.2.2 _ _ "luxury" rfl
     (by decide) (by decide) (by decide) (by decide)⟩

/-- C2: under a date oracle on which blank strings never parse (true of
the JS `Date` constructor), a request passing validation produces a
provider request omitting `returnDate` iff the input's return date is
absent or unparsable; and with such a request an unparsable return date
never makes the search fail — a 2xx upstream response still yields a
shaped success. -/
theorem returnDate_leniency {α δ : Type} :
    (∀ (dv : String → Bool) (req : FlightSearchRequest),
      (∀ s, jsTrim s = "" → dv s = false) →
      ((buildBackendRequest dv req).returnDate = none ↔
        req.returnDate = none ∨ ∃ r, req.returnDate = some r ∧ dv r = false)) ∧
    (∀ (env : SearchEnv α δ) (req : FlightSearchRequest) (st : Store)
       (d : Option (List α)) (dicts : Option δ),
      env.post = PostOutcome.success d dicts →
      env.dateValid req.departureDate = true →
      (req.originLocationCode == "") = false →
      (req.destinationLocationCode == "") = false →
      jsFalsyOpt req.originEntityId = false →
      jsFalsyOpt req.destinationEntityId = false →
      ∃ resp, (searchFlights env req st).result = Except.ok resp) := by
  constructor
  · intro dv req hblank
    simp only [buildBackendRequest, normalizedReturnDate]
    cases hret : req.returnDate with
    | none => simp
    | some r =>
      by_cases he : r = ""
      · have hdv : dv r = false := hblank r (by rw [he]; decide)
        subst he
        simp [hdv]
      · by_cases ht : jsTrim r = ""
        · have hdv : dv r = false := hblank r ht
          simp [he, ht, hdv]
        · cases hdv : dv r with
          | false => simp [he, ht, hdv]
          | true => simp [he, ht, hdv]
  · intro env req st d dicts hpost h1 h2 h3 h4 h5
    refine ⟨{ data := d.getD []
              meta := { count := jsOrNat (d.getD []).length 0, selfLink := "/flights/search" }
              dictionaries := dicts.getD env.emptyDict }, ?_⟩
    simp [searchFlights, validateRequest_eq_none h1 h2 h3 h4 h5, hpost]

/-- Base sample environment used by the concrete witnesses: a date
oracle accepting exactly the non-blank strings, a 2xx upstream
response with no data, and no storage faults. -/
def exEnvBase : SearchEnv String Nat :=
  { dateValid := fun s => !(jsTrim s == "")
    post := PostOutcome.success none none
    nowId := "1700000000000"
    nowIso := "2023-11-14T22:13:20.000Z"
    emptyDict := 0
    getRecentThrows := false
    setRecentThrows := false }

/-- Empty sample store. -/
def exStore : Store := { recentSearches := none, popularRoutes := none }

/-- C2 witness: at a concrete request whose return date is the
unparsable-under-the-oracle string `" "`, the provider request omits
`returnDate` and the search still succeeds, via `returnDate_leniency`. -/
theorem returnDate_leniency_witness :
    ((buildBackendRequest exEnvBase.dateValid
      { originLocationCode := "JFK", destinationLocationCode := "LAX",
        originEntityId := some "27537542", destinationEntityId := some "27544850",
        departureDate := "2024-06-01", returnDate := some " ", adults := 1,
        children := none, infants := none, travelClass := none,
        currencyCode := none }).returnDate = none) ∧
    ∃ resp, (searchFlights exEnvBase
      { originLocationCode := "JFK", destinationLocationCode := "LAX",
        originEntityId := some "27537542", destinationEntityId := some "27544850",
        departureDate := "2024-06-01", returnDate := some " ", adults := 1,
        children := none, infants := none, travelClass := none,
        currencyCode := none } exStore).result = Except.ok resp :=
  ⟨((@returnDate_leniency String Nat).1 exEnvBase.dateValid _
      (fun s h => by simp [exEnvBase, h])).mpr
    (Or.inr ⟨" ", rfl, by decide⟩),
   (@returnDate_leniency String Nat).2 exEnvBase _ exStore none none
     rfl (by decide) (by decide) (by decide) (by decide) (by decide)⟩

/-- Concrete request for the C3 counterexample: both entity identifiers
absent AND an unparsable (empty) departure date. -/
def c3Req : FlightSearchRequest :=
  { originLocationCode := "JFK", destinationLocationCode := "LAX",
    originEntityId := none, destinationEntityId := none,
    departureDate := "", returnDate := none, adults := 1,
    children := none, infants := none, travelClass := none, currencyCode := none }

/-- C3 counterexample: a request missing both entity identifiers whose
departure date is also unparsable fails with the invalid-date error,
not the entity-identifiers `MissingField` error — the departure-date
check at lines 81-84 runs before the entity-identifier check at
lines 91-93.  (No network call is issued, as the claim says.) -/
theorem c3_counterexample :
    (searchFlights exEnvBase c3Req exStore).result
      = Except.error (searchFailedMsg invalidDepartureMsg) ∧
    searchFailedMsg invalidDepartureMsg ≠ searchFailedMsg missingEntityIdsMsg ∧
    (searchFlights exEnvBase c3Req exStore).sent = none :=
  ⟨rfl, by decide, rfl⟩

/-- C3 (amended): provided the departure date parses and both location
codes are present, a request missing (or with an empty) origin or
destination entity identifier fails with the entity-identifiers
`MissingField` error, issues no network call, and leaves the store
untouched. -/
theorem missing_entity_ids_rejected {α δ : Type}
    (env : SearchEnv α δ) (req : FlightSearchRequest) (st : Store)
    (h1 : env.dateValid req.departureDate = true)
    (h2 : (req.originLocationCode == "") = false)
    (h3 : (req.destinationLocationCode == "") = false)
    (h4 : jsFalsyOpt req.originEntityId = true ∨ jsFalsyOpt req.destinationEntityId = true) :
    (searchFlights env req st).result = Except.error (searchFailedMsg missingEntityIdsMsg) ∧
    (searchFlights env req st).sent = none ∧
    (searchFlights env req st).store = st := by
  have hv : validateRequest env.dateValid req = some missingEntityIdsMsg := by
    rcases h4 with h4 | h4 <;> simp [validateRequest, h1, h2, h3, h4]
  simp [searchFlights, hv]

/-- Concrete request for the amended-C3 witness: parsable departure
date, codes present, origin entity identifier absent. -/
def c3AmendReq : FlightSearchRequest :=
  { originLocationCode := "JFK", destinationLocationCode := "LAX",
    originEntityId := none, destinationEntityId := some "27544850",
    departureDate := "2024-06-01", returnDate := none, adults := 1,
    children := none, infants := none, travelClass := none, currencyCode := none }

/-- C3 (amended) witness, via `missing_entity_ids_rejected` at
`c3AmendReq`. -/
theorem missing_entity_ids_rejected_witness :
    (searchFlights exEnvBase c3AmendReq exStore).result
      = Except.error (searchFailedMsg missingEntityIdsMsg) ∧
    (searchFlights exEnvBase c3AmendReq exStore).sent = none ∧
    (searchFlights exEnvBase c3AmendReq exStore).store = exStore :=
  missing_entity_ids_rejected exEnvBase c3AmendReq exStore
    (by decide) (by decide) (by decide) (Or.inl rfl)

/-- Concrete request for the C9 counterexample: origin and destination
codes equal, everything else valid. -/
def c9Req : FlightSearchRequest :=
  { originLocationCode := "JFK", destinationLocationCode := "JFK",
    originEntityId := some "27537542", destinationEntityId := some "27537542",
    departureDate := "2024-06-01", returnDate := none, adults := 1,
    children := none, infants := none, travelClass := none, currencyCode := none }

/-- C9 counterexample: a request with origin code equal to destination
code passes validation and IS sent to the provider — `searchFlights`
contains no origin≠destination check, so the claimed invariant fails
on the produced provider request. -/
theorem c9_counterexample :
    (searchFlights exEnvBase c9Req exStore).sent
      = some (buildBackendRequest exEnvBase.dateValid c9Req) ∧
    (buildBackendRequest exEnvBase.dateValid c9Req).originSkyId
      = (buildBackendRequest exEnvBase.dateValid c9Req).destinationSkyId ∧
    ((searchFlights exEnvBase c9Req exStore).sent).isSome = true :=
  ⟨rfl, rfl, rfl⟩

/-- C9 (amended): `searchFlights` performs no origin-versus-destination
distinctness check; a request with equal origin and destination codes
that passes the presence and departure-date checks reaches the network
call, and the provider request echoes the equal codes.  (The only
equal-codes rejection in the repository is an alert in the
`FlightSearchScreen` UI, upstream of this service.) -/
theorem equal_codes_not_rejected {α δ : Type}
    (env : SearchEnv α δ) (req : FlightSearchRequest) (st : Store)
    (h1 : env.dateValid req.departureDate = true)
    (h2 : (req.originLocationCode == "") = false)
    (h3 : (req.destinationLocationCode == "") = false)
    (h4 : jsFalsyOpt req.originEntityId = false)
    (h5 : jsFalsyOpt req.destinationEntityId = false)
    (heq : req.originLocationCode = req.destinationLocationCode) :
    (searchFlights env req st).sent = some (buildBackendRequest env.dateValid req) ∧
    (buildBackendRequest env.dateValid req).originSkyId
      = (buildBackendRequest env.dateValid req).destinationSkyId := by
  have hv := validateRequest_eq_none h1 h2 h3 h4 h5
  constructor
  · cases hpost : env.post <;> simp [searchFlights, hv, hpost]
    split <;> simp
  · simpa [buildBackendRequest] using heq

/-- C9 (amended) witness, via `equal_codes_not_rejected` at `c9Req`. -/
theorem equal_codes_not_rejected_witness :
    (searchFlights exEnvBase c9Req exStore).sent
      = some (buildBackendRequest exEnvBase.dateValid c9Req) ∧
    (buildBackendRequest exEnvBase.dateValid c9Req).originSkyId
      = (buildBackendRequest exEnvBase.dateValid c9Req).destinationSkyId :=
  equal_codes_not_rejected exEnvBase c9Req exStore
    (by decide) (by decide) (by decide) (by decide) (by decide) rfl

/-- All three validation checks of lines 80-93 pass (Prop form). -/
def passesChecks {α δ : Type} (env : SearchEnv α δ) (req : FlightSearchRequest) : Prop :=
  env.dateValid req.departureDate = true ∧
  (req.originLocationCode == "") = false ∧
  (req.destinationLocationCode == "") = false ∧
  jsFalsyOpt req.originEntityId = false ∧
  jsFalsyOpt req.destinationEntityId = false

/-- `passesChecks` means no validation `Error` is thrown. -/
theorem passesChecks_validate {α δ : Type} {env : SearchEnv α δ}
    {req : FlightSearchRequest} (h : passesChecks env req) :
    validateRequest env.dateValid req = none :=
  validateRequest_eq_none h.1 h.2.1 h.2.2.1 h.2.2.2.1 h.2.2.2.2

/-- `jsOrNat n 0` is `n` (the `|| 0` at line 139 is the identity). -/
theorem jsOrNat_zero (n : Nat) : jsOrNat n 0 = n := by
  unfold jsOrNat; split <;> omega

/-- A valid sample request used by the concrete witnesses. -/
def exReqValid : FlightSearchRequest :=
  { originLocationCode := "JFK", destinationLocationCode := "LAX",
    originEntityId := some "27537542", destinationEntityId := some "27544850",
    departureDate := "2024-06-01", returnDate := none, adults := 1,
    children := none, infants := none, travelClass := none, currencyCode := none }

/-- Sample environment observing an upstream 401. -/
def exEnv401 : SearchEnv String Nat :=
  { exEnvBase with
    post := PostOutcome.httpError 401 (some "Unauthorized") "Request failed with status code 401" }

/-- Sample environment observing an upstream 500 with a body message. -/
def exEnv500 : SearchEnv String Nat :=
  { exEnvBase with
    post := PostOutcome.httpError 500 (some "Internal server error") "Request failed with status code 500" }

/-- C5: an envelope with no `data` field shapes to a success with
`count = 0` and an empty offer list, not an error; every shaped
response has `count` equal to the length of the extracted offer array
(the upstream reports no count and none is used); the dictionaries
block is passed through verbatim when present and replaced by the
empty dictionary set when absent. -/
theorem response_shaping {α δ : Type} :
    (∀ (env : SearchEnv α δ) (req : FlightSearchRequest) (st : Store) (dicts : Option δ),
      env.post = PostOutcome.success none dicts →
      passesChecks env req →
      (searchFlights env req st).result = Except.ok
        { data := []
          meta := { count := 0, selfLink := "/flights/search" }
          dictionaries := dicts.getD env.emptyDict }) ∧
    (∀ (env : SearchEnv α δ) (req : FlightSearchRequest) (st : Store)
       (resp : FlightSearchResponse α δ),
      (searchFlights env req st).result = Except.ok resp →
      resp.meta.count = resp.data.length) ∧
    (∀ (env : SearchEnv α δ) (req : FlightSearchRequest) (st : Store)
       (d : Option (List α)) (dd : δ) (resp : FlightSearchResponse α δ),
      env.post = PostOutcome.success d (some dd) →
      (searchFlights env req st).result = Except.ok resp →
      resp.dictionaries = dd) ∧
    (∀ (env : SearchEnv α δ) (req : FlightSearchRequest) (st : Store)
       (d : Option (List α)) (resp : FlightSearchResponse α δ),
      env.post = PostOutcome.success d none →
      (searchFlights env req st).result = Except.ok resp →
      resp.dictionaries = env.emptyDict) := by
  refine ⟨?_, ?_, ?_, ?_⟩
  · intro env req st dicts hpost h
    simp [searchFlights, passesChecks_validate h, hpost, jsOrNat]
  · intro env req st resp h
    unfold searchFlights at h
    cases hval : validateRequest env.dateValid req with
    | some m => simp [hval] at h
    | none =>
      cases hpost : env.post with
      | success d dicts =>
          simp only [hval, hpost] at h
          simp only [Except.ok.injEq] at h
          rw [← h]
          simp [jsOrNat_zero]
      | httpError s dm m =>
          simp only [hval, hpost] at h
          split at h <;> simp at h
      | networkError m =>
          simp only [hval, hpost] at h
          simp at h
  · intro env req st d dd resp hpost h
    unfold searchFlights at h
    cases hval : validateRequest env.dateValid req with
    | some m => simp [hval] at h
    | none =>
      simp only [hval, hpost] at h
      simp only [Except.ok.injEq] at h
      rw [← h]; simp
  · intro env req st d resp hpost h
    unfold searchFlights at h
    cases hval : validateRequest env.dateValid req with
    | some m => simp [hval] at h
    | none =>
      simp only [hval, hpost] at h
      simp only [Except.ok.injEq] at h
      rw [← h]; simp

/-- C5 witness: the no-`data` envelope of `exEnvBase` shapes to the
empty success at `exReqValid`, via `response_shaping`. -/
theorem response_shaping_witness :
    (searchFlights exEnvBase exReqValid exStore).result = Except.ok
      { data := []
        meta := { count := 0, selfLink := "/flights/search" }
        dictionaries := (none : Option Nat).getD exEnvBase.emptyDict } :=
  response_shaping.1 exEnvBase exReqValid exStore none rfl
    ⟨rfl, rfl, rfl, rfl, rfl⟩

/-- C6: a failed upstream call surfaces as the distinct `AuthRequired`
error exactly on HTTP 401; every other HTTP failure surfaces as
`SearchFailed` carrying the upstream body message when one is
available (truthy) and the transport-level message otherwise; a
transport failure with no response surfaces as `SearchFailed` with the
transport message. -/
theorem upstream_error_mapping {α δ : Type} :
    (∀ (env : SearchEnv α δ) (req : FlightSearchRequest) (st : Store)
       (dm : Option String) (m : String),
      env.post = PostOutcome.httpError 401 dm m →
      passesChecks env req →
      (searchFlights env req st).result = Except.error authRequiredMsg) ∧
    (∀ (env : SearchEnv α δ) (req : FlightSearchRequest) (st : Store)
       (s : Nat) (m bodyMsg : String),
      env.post = PostOutcome.httpError s (some bodyMsg) m → s ≠ 401 →
      (bodyMsg == "") = false →
      passesChecks env req →
      (searchFlights env req st).result = Except.error (searchFailedMsg bodyMsg)) ∧
    (∀ (env : SearchEnv α δ) (req : FlightSearchRequest) (st : Store)
       (s : Nat) (m : String),
      env.post = PostOutcome.httpError s none m → s ≠ 401 →
      passesChecks env req →
      (searchFlights env req st).result = Except.error (searchFailedMsg m)) ∧
    (∀ (env : SearchEnv α δ) (req : FlightSearchRequest) (st : Store) (m : String),
      env.post = PostOutcome.networkError m →
      passesChecks env req →
      (searchFlights env req st).result = Except.error (searchFailedMsg m)) := by
  refine ⟨?_, ?_, ?_, ?_⟩
  · intro env req st dm m hpost h
    simp [searchFlights, passesChecks_validate h, hpost]
  · intro env req st s m bodyMsg hpost hs hb h
    simp [searchFlights, passesChecks_validate h, hpost, hs, jsOrStr, hb]
  · intro env req st s m hpost hs h
    simp [searchFlights, passesChecks_validate h, hpost, hs, jsOrStr]
  · intro env req st m hpost h
    simp [searchFlights, passesChecks_validate h, hpost]

/-- C6 witness: a simulated 401 surfaces as `AuthRequired` and a
simulated 500 carries the upstream body message, via
`upstream_error_mapping`. -/
theorem upstream_error_mapping_witness :
    (searchFlights exEnv401 exReqValid exStore).result
      = Except.error authRequiredMsg ∧
    (searchFlights exEnv500 exReqValid exStore).result
      = Except.error (searchFailedMsg "Internal server error") :=
  ⟨upstream_error_mapping.1 exEnv401 exReqValid exStore (some "Unauthorized")
      "Request failed with status code 401" rfl ⟨rfl, rfl, rfl, rfl, rfl⟩,
   upstream_error_mapping.2.1 exEnv500 exReqValid exStore 500
      "Request failed with status code 500" "Internal server error" rfl
      (by decide) (by decide) ⟨rfl, rfl, rfl, rfl, rfl⟩⟩

/-- C10: whenever the upstream POST succeeds, the search returns the
shaped response — the statement quantifies over arbitrary storage
fault flags and arbitrary (possibly corrupt) stores, so a storage read
or write failing (or throwing) during the recent-search append never
propagates to the caller and never changes the returned result. -/
theorem persistence_failure_swallowed {α δ : Type}
    (env : SearchEnv α δ) (req : FlightSearchRequest) (st : Store)
    (d : Option (List α)) (dicts : Option δ)
    (hpost : env.post = PostOutcome.success d dicts)
    (h : passesChecks env req) :
    (searchFlights env req st).result = Except.ok
      { data := d.getD []
        meta := { count := jsOrNat (d.getD []).length 0, selfLink := "/flights/search" }
        dictionaries := dicts.getD env.emptyDict } := by
  simp [searchFlights, passesChecks_validate h, hpost]

/-- Sample environment whose storage read throws during the append. -/
def exEnvGetThrows : SearchEnv String Nat :=
  { exEnvBase with getRecentThrows := true }

/-- Sample store holding a corrupt recent-searches value. -/
def exStoreCorrupt : Store :=
  { recentSearches := some RecentVal.corrupt, popularRoutes := none }

/-- C10 witness: with a throwing storage read and a corrupt store, the
search still returns the shaped success, via
`persistence_failure_swallowed`. -/
theorem persistence_failure_swallowed_witness :
    (searchFlights exEnvGetThrows exReqValid exStoreCorrupt).result = Except.ok
      { data := ([] : List String)
        meta := { count := jsOrNat ([] : List String).length 0, selfLink := "/flights/search" }
        dictionaries := (none : Option Nat).getD exEnvGetThrows.emptyDict } :=
  persistence_failure_swallowed exEnvGetThrows exReqValid exStoreCorrupt none none
    rfl ⟨rfl, rfl, rfl, rfl, rfl⟩

/-- C7: with no storage faults, two successive `getPopularRoutes` calls
return identical content; the second call performs no seed write and
leaves the store unchanged; and the seed write happens on the first
call exactly when the popular-routes key is absent. -/
theorem popularRoutes_idempotent (env : RoutesEnv) (st : Store)
    (hg : env.getThrows = false) (hs : env.setThrows = false) :
    (getPopularRoutes env (getPopularRoutes env st).store).result
      = (getPopularRoutes env st).result ∧
    (getPopularRoutes env (getPopularRoutes env st).store).seedWritten = false ∧
    (getPopularRoutes env (getPopularRoutes env st).store).store
      = (getPopularRoutes env st).store ∧
    ((getPopularRoutes env st).seedWritten = true ↔ st.popularRoutes = none) := by
  cases st with
  | mk rs pr =>
    cases pr with
    | none => simp [getPopularRoutes, hg, hs]
    | some v => cases v <;> simp [getPopularRoutes, hg, hs]

/-- Fault-free sample environment for `getPopularRoutes`. -/
def exRoutesEnv : RoutesEnv := { getThrows := false, setThrows := false }

/-- C7 witness: two calls on the empty store, via
`popularRoutes_idempotent`. -/
theorem popularRoutes_idempotent_witness :
    (getPopularRoutes exRoutesEnv (getPopularRoutes exRoutesEnv exStore).store).result
      = (getPopularRoutes exRoutesEnv exStore).result ∧
    (getPopularRoutes exRoutesEnv (getPopularRoutes exRoutesEnv exStore).store).seedWritten
      = false ∧
    (getPopularRoutes exRoutesEnv (getPopularRoutes exRoutesEnv exStore).store).store
      = (getPopularRoutes exRoutesEnv exStore).store ∧
    ((getPopularRoutes exRoutesEnv exStore).seedWritten = true ↔
      exStore.popularRoutes = none) :=
  popularRoutes_idempotent exRoutesEnv exStore rfl rfl

/-! ## Behaviour of one append, shared by the cache-store claims -/

/-- Fault-free append onto an absent key: write the singleton list. -/
theorem saveRecentSearch_absent {α δ : Type} (env : SearchEnv α δ)
    (req : FlightSearchRequest) {st : Store}
    (hg : env.getRecentThrows = false) (hs : env.setRecentThrows = false)
    (h : st.recentSearches = none) :
    saveRecentSearch env req st
      = { st with recentSearches := some (RecentVal.ok [mkRecentSearch env req]) } := by
  simp [saveRecentSearch, parseStoredRecent, h, hg, hs]

/-- Fault-free append onto a well-formed list: prepend and truncate. -/
theorem saveRecentSearch_okList {α δ : Type} (env : SearchEnv α δ)
    (req : FlightSearchRequest) {st : Store} {l : List RecentSearch}
    (hg : env.getRecentThrows = false) (hs : env.setRecentThrows = false)
    (h : st.recentSearches = some (RecentVal.ok l)) :
    saveRecentSearch env req st
      = { st with recentSearches
            := some (RecentVal.ok ((mkRecentSearch env req :: l).take 10)) } := by
  simp [saveRecentSearch, parseStoredRecent, h, hg, hs]

/-- Append onto a corrupt value: the parse throw is swallowed and the
store is left unchanged. -/
theorem saveRecentSearch_corrupt {α δ : Type} (env : SearchEnv α δ)
    (req : FlightSearchRequest) {st : Store}
    (h : st.recentSearches = some RecentVal.corrupt) :
    saveRecentSearch env req st = st := by
  by_cases hg : env.getRecentThrows = true
  · simp [saveRecentSearch, hg]
  · simp at hg
    simp [saveRecentSearch, parseStoredRecent, h, hg]

/-- C4 counterexample: appending onto a corrupt stored value leaves the
corrupt value in place — the store does NOT end up holding the
one-element list with the new record, because the `JSON.parse` throw
jumps to the `catch` before anything is written. -/
theorem c4_counterexample :
    saveRecentSearch exEnvBase exReqValid exStoreCorrupt = exStoreCorrupt ∧
    (saveRecentSearch exEnvBase exReqValid exStoreCorrupt).recentSearches
      ≠ some (RecentVal.ok [mkRecentSearch exEnvBase exReqValid]) :=
  ⟨rfl, by decide⟩

/-- C4 (amended): with no storage faults, an append treats an absent
stored list as empty (prepend the new record, truncate to the first
10, write back), but a corrupt stored value aborts the append — the
swallowed parse error leaves the store unchanged, still holding the
corrupt value. -/
theorem append_recent_search_behaviour {α δ : Type}
    (env : SearchEnv α δ) (req : FlightSearchRequest) (st : Store)
    (hg : env.getRecentThrows = false) (hs : env.setRecentThrows = false) :
    (st.recentSearches = none →
      saveRecentSearch env req st
        = { st with recentSearches := some (RecentVal.ok [mkRecentSearch env req]) }) ∧
    (∀ l, st.recentSearches = some (RecentVal.ok l) →
      saveRecentSearch env req st
        = { st with recentSearches
              := some (RecentVal.ok ((mkRecentSearch env req :: l).take 10)) }) ∧
    (st.recentSearches = some RecentVal.corrupt →
      saveRecentSearch env req st = st) :=
  ⟨fun h => saveRecentSearch_absent env req hg hs h,
   fun _ h => saveRecentSearch_okList env req hg hs h,
   fun h => saveRecentSearch_corrupt env req h⟩

/-- C4 (amended) witness: an append onto the empty store yields the
singleton list, and onto the corrupt store changes nothing, via
`append_recent_search_behaviour`. -/
theorem append_recent_search_behaviour_witness :
    saveRecentSearch exEnvBase exReqValid exStore
      = { exStore with
          recentSearches := some (RecentVal.ok [mkRecentSearch exEnvBase exReqValid]) } ∧
    saveRecentSearch exEnvBase exReqValid exStoreCorrupt = exStoreCorrupt :=
  ⟨(append_recent_search_behaviour exEnvBase exReqValid exStore rfl rfl).1 rfl,
   (append_recent_search_behaviour exEnvBase exReqValid exStoreCorrupt rfl rfl).2.2 rfl⟩

/-! ## The recent-searches cap -/

/-- Fold of `saveRecentSearch` over a sequence of searches, each with
its own environment (the clock readings differ between calls). -/
def appendAll {α δ : Type} (steps : List (SearchEnv α δ × FlightSearchRequest))
    (st : Store) : Store :=
  steps.foldl (fun s p => saveRecentSearch p.1 p.2 s) st

/-- The records the appends of `steps` build. -/
def stepRecords {α δ : Type} (steps : List (SearchEnv α δ × FlightSearchRequest)) :
    List RecentSearch :=
  steps.map fun p => mkRecentSearch p.1 p.2

/-- The pure prepend-and-truncate fold underlying `appendAll`. -/
def foldRecents (rs : List RecentSearch) (l : List RecentSearch) : List RecentSearch :=
  rs.foldl (fun acc r => (r :: acc).take 10) l

/-- One prepend-and-truncate step ignores anything beyond the first 10
elements of the accumulator. -/
theorem take_cons_take (r : RecentSearch) (l : List RecentSearch) :
    (r :: l.take 10).take 10 = (r :: l).take 10 := by
  simp [List.take_succ_cons, List.take_take]

/-- Closed form of the fold when the start is already truncated. -/
theorem foldRecents_take (rs : List RecentSearch) :
    ∀ l, foldRecents rs (l.take 10) = (rs.reverse ++ l).take 10 := by
  induction rs with
  | nil => intro l; simp [foldRecents]
  | cons r rest ih =>
    intro l
    calc foldRecents (r :: rest) (l.take 10)
        = foldRecents rest ((r :: l.take 10).take 10) := rfl
      _ = foldRecents rest ((r :: l).take 10) := by rw [take_cons_take]
      _ = (rest.reverse ++ (r :: l)).take 10 := ih (r :: l)
      _ = ((r :: rest).reverse ++ l).take 10 := by simp

/-- Fault-free appends over a store holding a well-formed list compute
the pure fold. -/
theorem appendAll_ok {α δ : Type} (steps : List (SearchEnv α δ × FlightSearchRequest)) :
    ∀ (st : Store) (l : List RecentSearch),
    (∀ p ∈ steps, p.1.getRecentThrows = false ∧ p.1.setRecentThrows = false) →
    st.recentSearches = some (RecentVal.ok l) →
    appendAll steps st
      = { st with recentSearches
            := some (RecentVal.ok (foldRecents (stepRecords steps) l)) } := by
  induction steps with
  | nil =>
    intro st l _ h
    cases st
    simp [appendAll, foldRecents, stepRecords] at h ⊢
    exact h
  | cons p rest ih =>
    intro st l hf h
    have hp := hf p (List.mem_cons_self p rest)
    have hstep := saveRecentSearch_okList p.1 p.2 hp.1 hp.2 h
    have hrest : ∀ q ∈ rest, q.1.getRecentThrows = false ∧ q.1.setRecentThrows = false :=
      fun q hq => hf q (List.mem_cons_of_mem p hq)
    calc appendAll (p :: rest) st
        = appendAll rest (saveRecentSearch p.1 p.2 st) := rfl
      _ = _ := by
          rw [hstep, ih _ _ hrest rfl]
          rfl

/-- C1: starting from any store whose recent-searches value is absent or
well-formed, a sequence of more than 10 fault-free appends leaves
exactly the 10 most recently appended records, newest first — the
reversal of the appended sequence truncated to its first 10 entries,
so the head is the newest record. -/
theorem recent_searches_capped {α δ : Type}
    (steps : List (SearchEnv α δ × FlightSearchRequest)) (st : Store)
    (hf : ∀ p ∈ steps, p.1.getRecentThrows = false ∧ p.1.setRecentThrows = false)
    (hst : st.recentSearches = none ∨ ∃ l, st.recentSearches = some (RecentVal.ok l))
    (hn : 10 < steps.length) :
    (appendAll steps st).recentSearches
      = some (RecentVal.ok ((stepRecords steps).reverse.take 10)) := by
  cases steps with
  | nil => simp at hn
  | cons p rest =>
    have hp := hf p (List.mem_cons_self p rest)
    have hrest : ∀ q ∈ rest, q.1.getRecentThrows = false ∧ q.1.setRecentThrows = false :=
      fun q hq => hf q (List.mem_cons_of_mem p hq)
    have hlen : 10 ≤ rest.length := by
      simpa [Nat.lt_succ_iff] using hn
    have hrev : (stepRecords (p :: rest)).reverse
        = (stepRecords rest).reverse ++ [mkRecentSearch p.1 p.2] := by
      simp [stepRecords]
    rcases hst with h | ⟨l, h⟩
    · have hstep := saveRecentSearch_absent p.1 p.2 hp.1 hp.2 h
      have : appendAll (p :: rest) st
          = appendAll rest (saveRecentSearch p.1 p.2 st) := rfl
      rw [this, hstep, appendAll_ok rest _ _ hrest rfl]
      have hone : [mkRecentSearch p.1 p.2] = ([mkRecentSearch p.1 p.2]).take 10 := rfl
      rw [hone, foldRecents_take (stepRecords rest) [mkRecentSearch p.1 p.2], hrev]
    · have hstep := saveRecentSearch_okList p.1 p.2 hp.1 hp.2 h
      have : appendAll (p :: rest) st
          = appendAll rest (saveRecentSearch p.1 p.2 st) := rfl
      rw [this, hstep, appendAll_ok rest _ _ hrest rfl]
      rw [foldRecents_take (stepRecords rest) (mkRecentSearch p.1 p.2 :: l), hrev]
      have hsplit : (stepRecords rest).reverse ++ (mkRecentSearch p.1 p.2 :: l)
          = ((stepRecords rest).reverse ++ [mkRecentSearch p.1 p.2]) ++ l := by
        simp
      rw [hsplit, List.take_append_of_le_length]
      simp [stepRecords]
      omega

/-- C1 witness: eleven identical fault-free appends onto the empty
store, via `recent_searches_capped`. -/
theorem recent_searches_capped_witness :
    (appendAll (List.replicate 11 ((exEnvBase, exReqValid) :
        SearchEnv String Nat × FlightSearchRequest)) exStore).recentSearches
      = some (RecentVal.ok ((stepRecords (List.replicate 11 ((exEnvBase, exReqValid) :
          SearchEnv String Nat × FlightSearchRequest))).reverse.take 10)) :=
  recent_searches_capped _ exStore
    (fun p hp => by
      have h := List.eq_of_mem_replicate hp
      rw [h]
      exact ⟨rfl, rfl⟩)
    (Or.inl rfl)
    (by simp)

end GFlights
